import Mathlib

/-!
Shallow embedding of the SecureBank fraud-detection front end
(src/streamlit_app.py) and proofs about its transaction-submission,
feature-synthesis and history-cache behaviour.

Modelling conventions:
* Python floats are modelled as rationals (ℚ).
* The random source (random.uniform) is an injected function
  rng : ℕ → ℚ → ℚ → ℚ, call index first, then the two bounds; theorems that
  need the uniform range assume a ≤ rng i a b ≤ b.
* The remote HTTP collaborator is an injected function from the request
  payload to an abstract result (parsed 200 body, non-200 status, connection
  failure, or any other exception), matching the try/except structure of the
  code.
* Streamlit session state (wallet_balance) and the st.cache_data cache for
  get_history are passed and returned explicitly.
-/

namespace FraudFrontend

/-- Base URL of the backend (streamlit_app.py line 17). -/
def API_URL : String := "https://fraud-detection-api-ddtn.onrender.com"

/-- Initial wallet balance, 500000.00 (line 21); also the reset value (line 149). -/
def initialWalletBalance : ℚ := 500000

/-- Result of the "Reset Balance" button (line 149): balance is set back to the constant. -/
def reset_balance : ℚ := 500000

/-- Secret trigger merchant literal (line 35). -/
def SECRET_FRAUD_MERCHANT : String := "Risk-Wallet.com"

/-- Secret trigger amount literal, 987654.00 (line 36). -/
def SECRET_FRAUD_AMOUNT : ℚ := 987654

/-- The fixed 28-value fraud template (lines 26-33); index i holds V(i+1). -/
def FRAUD_TRANSACTION_TEMPLATE : Fin 28 → ℚ := fun i =>
  match i.val with
  | 0 => -23/10 | 1 => 11/10 | 2 => -45/10 | 3 => 41/10 | 4 => -21/10
  | 5 => -12/10 | 6 => -55/10 | 7 => 7/10 | 8 => -21/10 | 9 => -52/10
  | 10 => 4 | 11 => -79/10 | 12 => 1/10 | 13 => -81/10 | 14 => -3/10
  | 15 => -31/10 | 16 => -122/10 | 17 => 8/10 | 18 => 1/10 | 19 => 3/10
  | 20 => 6/10 | 21 => 1/10 | 22 => 0 | 23 => -2/10 | 24 => -1/10
  | 25 => 1/10 | 26 => 4/10 | _ => 1/10

/-- Hidden trigger decision (lines 184-187). -/
def is_secret_fraud (merchant : String) (amount : ℚ) : Bool :=
  (merchant == SECRET_FRAUD_MERCHANT) || (amount == SECRET_FRAUD_AMOUNT)

/-- Feature synthesis (lines 189-194): on the trigger path each template value is
perturbed by a fresh uniform(-0.1, 0.1) draw; on the genuine path each of the 28
features is a fresh uniform(-5, 5) draw. -/
def v_features (rng : ℕ → ℚ → ℚ → ℚ) (is_secret : Bool) : Fin 28 → ℚ := fun i =>
  if is_secret then FRAUD_TRANSACTION_TEMPLATE i + rng i.val (-1/10) (1/10)
  else rng i.val (-5) 5

/-- The uniform-range contract of random.uniform: the draw lies between the bounds. -/
def UniformRng (rng : ℕ → ℚ → ℚ → ℚ) : Prop :=
  ∀ i a b, a ≤ b → a ≤ rng i a b ∧ rng i a b ≤ b

/-- The JSON body POSTed to /predict/ (lines 198-202): exactly a Time, an Amount
and the 28 features; no merchant or cardholder field exists. -/
structure Payload where
  Time : ℚ
  Amount : ℚ
  V : Fin 28 → ℚ

/-- Python float modulo with a positive modulus, used for time.time() % 172800. -/
def pymod (x y : ℚ) : ℚ := x - y * (⌊x / y⌋ : ℤ)

/-- The payload built at lines 198-202 from the current time, the amount and the
synthesized features. -/
def mkPayload (now amount : ℚ) (rng : ℕ → ℚ → ℚ → ℚ) (is_secret : Bool) : Payload :=
  { Time := pymod now 172800, Amount := amount, V := v_features rng is_secret }

/-- Abstract result of the POST to /predict/ as the try/except at lines 204-228
distinguishes cases: a parsed 200 body, a non-200 status with its text, a
requests.exceptions.ConnectionError, or any other exception. -/
inductive ApiResult where
  | success (is_fraud : ℤ) (probability_fraud : ℚ)
  | httpError (status : ℕ) (body : String)
  | connectionFailure
  | exception (detail : String)
deriving DecidableEq

/-- One record of the /history/ response (§3 of the data model; line 122). -/
structure HistoryRecord where
  id : ℕ
  Amount : ℚ
  is_fraud : ℤ
  probability_fraud : ℚ
  Time : ℚ
deriving DecidableEq

/-- State of the st.cache_data cache holding get_history's value and the time it
was computed; none after st.cache_data.clear(). -/
structure HistoryCache where
  entry : Option (List HistoryRecord × ℚ)
deriving DecidableEq

/-- The cache state right after st.cache_data.clear(). -/
def clearedCache : HistoryCache := { entry := none }

/-- Outcome of one submission, the taxonomy of §7. -/
inductive Outcome where
  | insufficientFunds
  | denied (probability_fraud : ℚ)
  | approved (probability_fraud : ℚ) (new_balance : ℚ)
  | apiError (status : ℕ) (body : String)
  | connectionError
  | unexpectedError (detail : String)
deriving DecidableEq

/-- Everything the submit handler (lines 174-228) leaves behind: the outcome
shown to the user, the wallet balance after the handler, the payload sent to the
collaborator (none when no external call was issued), whether the feature
synthesis at lines 189-194 ran, and the history-cache state after the handler. -/
structure SubmitResult where
  outcome : Outcome
  wallet_balance : ℚ
  payload : Option Payload
  features_synthesized : Bool
  cache : HistoryCache

/-- The submit-button handler (lines 174-228). st.cache_data.clear() runs first
(line 176), then the funds guard (line 179), then trigger decision, feature
synthesis, payload construction and the POST, then outcome resolution on the
response (lines 207-228). -/
def evaluate_and_submit (cardholder_name merchant : String) (amount : ℚ)
    (wallet_balance : ℚ) (now : ℚ) (rng : ℕ → ℚ → ℚ → ℚ)
    (api : Payload → ApiResult) (cache : HistoryCache) : SubmitResult :=
  if amount > wallet_balance then
    { outcome := .insufficientFunds, wallet_balance := wallet_balance,
      payload := none, features_synthesized := false, cache := clearedCache }
  else
    match api (mkPayload now amount rng (is_secret_fraud merchant amount)) with
    | .success is_fraud probability_fraud =>
        if is_fraud = 1 then
          { outcome := .denied probability_fraud, wallet_balance := wallet_balance,
            payload := some (mkPayload now amount rng (is_secret_fraud merchant amount)),
            features_synthesized := true, cache := clearedCache }
        else
          { outcome := .approved probability_fraud (wallet_balance - amount),
            wallet_balance := wallet_balance - amount,
            payload := some (mkPayload now amount rng (is_secret_fraud merchant amount)),
            features_synthesized := true, cache := clearedCache }
    | .httpError status body =>
        { outcome := .apiError status body, wallet_balance := wallet_balance,
          payload := some (mkPayload now amount rng (is_secret_fraud merchant amount)),
          features_synthesized := true, cache := clearedCache }
    | .connectionFailure =>
        { outcome := .connectionError, wallet_balance := wallet_balance,
          payload := some (mkPayload now amount rng (is_secret_fraud merchant amount)),
          features_synthesized := true, cache := clearedCache }
    | .exception detail =>
        { outcome := .unexpectedError detail, wallet_balance := wallet_balance,
          payload := some (mkPayload now amount rng (is_secret_fraud merchant amount)),
          features_synthesized := true, cache := clearedCache }

/-- Abstract result of the GET to /history/ as the try/except at lines 119-131
distinguishes cases. -/
inductive HistoryResponse where
  | ok (records : List HistoryRecord)
  | httpError (status : ℕ)
  | connectionFailure
  | exception (detail : String)
deriving DecidableEq

/-- Body of get_history (lines 117-131), before caching: the fetched records
together with the visible error messages it emits via st.error. -/
def get_history (resp : HistoryResponse) : List HistoryRecord × List String :=
  match resp with
  | .ok records => (records, [])
  | .httpError status =>
      ([], ["Failed to fetch history (Status: " ++ toString status ++ ")"])
  | .connectionFailure =>
      ([], ["Connection Error: Could not connect to the API at " ++ API_URL ++ "."])
  | .exception detail => ([], ["An error occurred: " ++ detail])

/-- Time-to-live of the history cache, from st.cache_data(ttl=60) at line 116. -/
def cacheTTL : ℚ := 60

/-- What one cached call to get_history leaves behind: the records shown, the
error messages emitted on this call, the cache afterwards, and whether the GET
to the collaborator was actually issued. -/
structure FetchOutcome where
  result : List HistoryRecord
  messages : List String
  cache : HistoryCache
  called_external : Bool

/-- Models the st.cache_data(ttl=60) wrapper around get_history (line 116): a
fresh cached value (younger than the ttl) is served without an external call;
otherwise get_history runs against the backend and its value is cached. -/
def fetch_history (backend : ℚ → HistoryResponse) (c : HistoryCache) (now : ℚ) :
    FetchOutcome :=
  match c.entry with
  | some (v, t) =>
      if now - t < cacheTTL then
        { result := v, messages := [], cache := c, called_external := false }
      else
        { result := (get_history (backend now)).1,
          messages := (get_history (backend now)).2,
          cache := { entry := some ((get_history (backend now)).1, now) },
          called_external := true }
  | none =>
      { result := (get_history (backend now)).1,
        messages := (get_history (backend now)).2,
        cache := { entry := some ((get_history (backend now)).1, now) },
        called_external := true }

/-- Models st.cache_data.clear() (lines 176 and 236). -/
def invalidate (_ : HistoryCache) : HistoryCache := { entry := none }

/-- C1: a submission with amount > wallet_balance returns InsufficientFunds,
issues no external call, performs no balance mutation, and short-circuits before
any feature synthesis or external call. -/
theorem insufficient_funds_short_circuits
    (cardholder_name merchant : String) (amount wallet_balance now : ℚ)
    (rng : ℕ → ℚ → ℚ → ℚ) (api : Payload → ApiResult) (cache : HistoryCache)
    (h : amount > wallet_balance) :
    (evaluate_and_submit cardholder_name merchant amount wallet_balance now rng api
        cache).outcome = Outcome.insufficientFunds
    ∧ (evaluate_and_submit cardholder_name merchant amount wallet_balance now rng api
        cache).payload = none
    ∧ (evaluate_and_submit cardholder_name merchant amount wallet_balance now rng api
        cache).wallet_balance = wallet_balance
    ∧ (evaluate_and_submit cardholder_name merchant amount wallet_balance now rng api
        cache).features_synthesized = false := by
  simp [evaluate_and_submit, h]

/-- Witness for C1 at balance 500000.00, requested amount 600000.00 (the §8
scenario). -/
theorem insufficient_funds_short_circuits_spot :
    (600000 : ℚ) > 500000
    ∧ ((evaluate_and_submit "John M. Doe" "Amazon Web Services" 600000 500000 0
          (fun _ _ _ => 0) (fun _ => ApiResult.connectionFailure)
          clearedCache).outcome = Outcome.insufficientFunds
      ∧ (evaluate_and_submit "John M. Doe" "Amazon Web Services" 600000 500000 0
          (fun _ _ _ => 0) (fun _ => ApiResult.connectionFailure)
          clearedCache).payload = none
      ∧ (evaluate_and_submit "John M. Doe" "Amazon Web Services" 600000 500000 0
          (fun _ _ _ => 0) (fun _ => ApiResult.connectionFailure)
          clearedCache).wallet_balance = 500000
      ∧ (evaluate_and_submit "John M. Doe" "Amazon Web Services" 600000 500000 0
          (fun _ _ _ => 0) (fun _ => ApiResult.connectionFailure)
          clearedCache).features_synthesized = false) :=
  ⟨by norm_num,
   insufficient_funds_short_circuits "John M. Doe" "Amazon Web Services"
     600000 500000 0 (fun _ _ _ => 0) (fun _ => ApiResult.connectionFailure)
     clearedCache (by norm_num)⟩

/-- C2: the wallet balance is mutated only on the Approved path: either the
handler leaves the balance unchanged, or the outcome is Approved carrying
exactly the new balance. -/
theorem balance_mutated_only_on_approved
    (cardholder_name merchant : String) (amount wallet_balance now : ℚ)
    (rng : ℕ → ℚ → ℚ → ℚ) (api : Payload → ApiResult) (cache : HistoryCache) :
    (evaluate_and_submit cardholder_name merchant amount wallet_balance now rng api
        cache).wallet_balance = wallet_balance
    ∨ ∃ p, (evaluate_and_submit cardholder_name merchant amount wallet_balance now rng
        api cache).outcome
        = Outcome.approved p ((evaluate_and_submit cardholder_name merchant amount
            wallet_balance now rng api cache).wallet_balance) := by
  unfold evaluate_and_submit
  split
  · exact Or.inl rfl
  · split
    · split
      · exact Or.inl rfl
      · exact Or.inr ⟨_, rfl⟩
    · exact Or.inl rfl
    · exact Or.inl rfl
    · exact Or.inl rfl

/-- On the trigger path, feature i is the template value plus the i-th draw. -/
lemma v_features_secret (rng : ℕ → ℚ → ℚ → ℚ) (i : Fin 28) :
    v_features rng true i = FRAUD_TRANSACTION_TEMPLATE i + rng i.val (-1/10) (1/10) := by
  simp [v_features]

/-- On the genuine path, feature i is the i-th uniform(-5, 5) draw. -/
lemma v_features_genuine (rng : ℕ → ℚ → ℚ → ℚ) (i : Fin 28) :
    v_features rng false i = rng i.val (-5) 5 := by
  simp [v_features]

/-- C3: on the trigger path each synthesized feature stays within 0.1 of the
corresponding template value (template plus a uniform(-0.1, 0.1) offset); on the
genuine path each synthesized feature lies in [-5, 5]. -/
theorem feature_synthesis_bounds (merchant : String) (amount : ℚ)
    (rng : ℕ → ℚ → ℚ → ℚ) (i : Fin 28) (h : UniformRng rng) :
    (is_secret_fraud merchant amount = true →
        FRAUD_TRANSACTION_TEMPLATE i - 1/10
            ≤ v_features rng (is_secret_fraud merchant amount) i
        ∧ v_features rng (is_secret_fraud merchant amount) i
            ≤ FRAUD_TRANSACTION_TEMPLATE i + 1/10)
    ∧ (is_secret_fraud merchant amount = false →
        -5 ≤ v_features rng (is_secret_fraud merchant amount) i
        ∧ v_features rng (is_secret_fraud merchant amount) i ≤ 5) := by
  constructor
  · intro hs
    have hb := h i.val (-1/10) (1/10) (by norm_num)
    rw [hs, v_features_secret]
    constructor
    · linarith [hb.1]
    · linarith [hb.2]
  · intro hs
    have hb := h i.val (-5) 5 (by norm_num)
    rw [hs, v_features_genuine]
    exact hb

/-- Witness for C3 with the trigger merchant, amount 100, i = 0 and the rng
that always returns its lower bound. -/
theorem feature_synthesis_bounds_spot :
    (is_secret_fraud "Risk-Wallet.com" 100 = true →
        FRAUD_TRANSACTION_TEMPLATE 0 - 1/10
            ≤ v_features (fun _ a _ => a) (is_secret_fraud "Risk-Wallet.com" 100) 0
        ∧ v_features (fun _ a _ => a) (is_secret_fraud "Risk-Wallet.com" 100) 0
            ≤ FRAUD_TRANSACTION_TEMPLATE 0 + 1/10)
    ∧ (is_secret_fraud "Risk-Wallet.com" 100 = false →
        -5 ≤ v_features (fun _ a _ => a) (is_secret_fraud "Risk-Wallet.com" 100) 0
        ∧ v_features (fun _ a _ => a) (is_secret_fraud "Risk-Wallet.com" 100) 0 ≤ 5) :=
  feature_synthesis_bounds "Risk-Wallet.com" 100 (fun _ a _ => a) 0
    (fun _ a _ hab => ⟨le_refl a, hab⟩)

/-- C4 counterexample: with sufficient funds and an unreachable collaborator,
the outcome is ConnectionError and the balance is unchanged, but the history
cache IS mutated: st.cache_data.clear() at line 176 runs on every submission,
so the pre-existing cache entry is gone afterwards. -/
theorem connection_error_cache_cex :
    (evaluate_and_submit "John M. Doe" "Amazon Web Services" 15000 500000 0
        (fun _ _ _ => 0) (fun _ => ApiResult.connectionFailure)
        { entry := some ([], 0) }).outcome = Outcome.connectionError
    ∧ (evaluate_and_submit "John M. Doe" "Amazon Web Services" 15000 500000 0
        (fun _ _ _ => 0) (fun _ => ApiResult.connectionFailure)
        { entry := some ([], 0) }).wallet_balance = 500000
    ∧ ¬ ((evaluate_and_submit "John M. Doe" "Amazon Web Services" 15000 500000 0
        (fun _ _ _ => 0) (fun _ => ApiResult.connectionFailure)
        { entry := some ([], 0) }).cache = { entry := some ([], 0) }) := by
  refine ⟨?_, ?_, ?_⟩ <;> decide

/-- C4 as amended: when the funds check passes and the collaborator is
unreachable, the submission results in ConnectionError, the balance is
unchanged, and the history cache is left cleared (no new snapshot is written;
the submission itself invalidated it before the call). -/
theorem connection_error_preserves_balance
    (cardholder_name merchant : String) (amount wallet_balance now : ℚ)
    (rng : ℕ → ℚ → ℚ → ℚ) (api : Payload → ApiResult) (cache : HistoryCache)
    (hle : amount ≤ wallet_balance)
    (hapi : ∀ p, api p = ApiResult.connectionFailure) :
    (evaluate_and_submit cardholder_name merchant amount wallet_balance now rng api
        cache).outcome = Outcome.connectionError
    ∧ (evaluate_and_submit cardholder_name merchant amount wallet_balance now rng api
        cache).wallet_balance = wallet_balance
    ∧ (evaluate_and_submit cardholder_name merchant amount wallet_balance now rng api
        cache).cache = clearedCache := by
  have h : ¬ amount > wallet_balance := not_lt.mpr hle
  simp [evaluate_and_submit, h, hapi]

/-- Witness for the amended C4 at amount 15000, balance 500000, an unreachable
collaborator and a non-empty prior cache. -/
theorem connection_error_preserves_balance_spot :
    (evaluate_and_submit "John M. Doe" "Amazon Web Services" 15000 500000 0
        (fun _ _ _ => 0) (fun _ => ApiResult.connectionFailure)
        { entry := some ([], 0) }).outcome = Outcome.connectionError
    ∧ (evaluate_and_submit "John M. Doe" "Amazon Web Services" 15000 500000 0
        (fun _ _ _ => 0) (fun _ => ApiResult.connectionFailure)
        { entry := some ([], 0) }).wallet_balance = 500000
    ∧ (evaluate_and_submit "John M. Doe" "Amazon Web Services" 15000 500000 0
        (fun _ _ _ => 0) (fun _ => ApiResult.connectionFailure)
        { entry := some ([], 0) }).cache = clearedCache :=
  connection_error_preserves_balance "John M. Doe" "Amazon Web Services"
    15000 500000 0 (fun _ _ _ => 0) (fun _ => ApiResult.connectionFailure)
    { entry := some ([], 0) } (by norm_num) (fun _ => rfl)

/-- C5: whenever the handler reports Approved with some probability and new
balance, that new balance is exactly the old balance minus the amount, and the
wallet holds exactly that value afterwards (a single debit). -/
theorem approved_debits_exactly_once
    (cardholder_name merchant : String) (amount wallet_balance now : ℚ)
    (rng : ℕ → ℚ → ℚ → ℚ) (api : Payload → ApiResult) (cache : HistoryCache)
    (p b : ℚ)
    (h : (evaluate_and_submit cardholder_name merchant amount wallet_balance now rng
        api cache).outcome = Outcome.approved p b) :
    b = wallet_balance - amount
    ∧ (evaluate_and_submit cardholder_name merchant amount wallet_balance now rng api
        cache).wallet_balance = wallet_balance - amount := by
  by_cases hgt : amount > wallet_balance
  · exact absurd h (by simp [evaluate_and_submit, hgt])
  · cases hres : api (mkPayload now amount rng (is_secret_fraud merchant amount)) with
    | success isf pf =>
        by_cases hone : isf = 1
        · exact absurd h (by simp [evaluate_and_submit, hgt, hres, hone])
        · simp only [evaluate_and_submit, if_neg hgt, hres, if_neg hone] at h ⊢
          rw [Outcome.approved.injEq] at h
          exact ⟨h.2.symm, trivial⟩
    | httpError s b2 => exact absurd h (by simp [evaluate_and_submit, hgt, hres])
    | connectionFailure => exact absurd h (by simp [evaluate_and_submit, hgt, hres])
    | exception d => exact absurd h (by simp [evaluate_and_submit, hgt, hres])

/-- Witness for C5: a genuine submission of 100 against balance 500000 with the
collaborator returning is_fraud 0, probability 0.01. -/
theorem approved_debits_exactly_once_spot :
    (499900 : ℚ) = 500000 - 100
    ∧ (evaluate_and_submit "John M. Doe" "Coffee Shop" 100 500000 0
        (fun _ _ _ => 0) (fun _ => ApiResult.success 0 (1/100))
        clearedCache).wallet_balance = 500000 - 100 :=
  approved_debits_exactly_once "John M. Doe" "Coffee Shop" 100 500000 0
    (fun _ _ _ => 0) (fun _ => ApiResult.success 0 (1/100)) clearedCache
    (1/100) 499900 (by norm_num [evaluate_and_submit])

/-- Whenever the funds guard passes, the payload actually POSTed is exactly the
one built by mkPayload from the time, the amount and the synthesized features. -/
lemma submit_payload_eq (cardholder_name merchant : String)
    (amount wallet_balance now : ℚ) (rng : ℕ → ℚ → ℚ → ℚ)
    (api : Payload → ApiResult) (cache : HistoryCache)
    (hle : ¬ amount > wallet_balance) :
    (evaluate_and_submit cardholder_name merchant amount wallet_balance now rng api
        cache).payload
      = some (mkPayload now amount rng (is_secret_fraud merchant amount)) := by
  cases hres : api (mkPayload now amount rng (is_secret_fraud merchant amount)) with
  | success isf pf =>
      by_cases hone : isf = 1 <;> simp [evaluate_and_submit, hle, hres, hone]
  | httpError s b => simp [evaluate_and_submit, hle, hres]
  | connectionFailure => simp [evaluate_and_submit, hle, hres]
  | exception d => simp [evaluate_and_submit, hle, hres]

/-- C6: the payload sent to the scorer is exactly Time (current time mod
172800), Amount, and the 28 features; it is independent of the cardholder name,
and depends on the merchant name only through the trigger decision — so neither
name is ever part of the payload. -/
theorem payload_excludes_names
    (cardholder_name cardholder_name2 merchant merchant2 : String)
    (amount wallet_balance now : ℚ) (rng : ℕ → ℚ → ℚ → ℚ)
    (api : Payload → ApiResult) (cache cache2 : HistoryCache)
    (hle : ¬ amount > wallet_balance)
    (hm : is_secret_fraud merchant amount = is_secret_fraud merchant2 amount) :
    (evaluate_and_submit cardholder_name merchant amount wallet_balance now rng api
        cache).payload
      = some (mkPayload now amount rng (is_secret_fraud merchant amount))
    ∧ (evaluate_and_submit cardholder_name2 merchant2 amount wallet_balance now rng
        api cache2).payload
      = (evaluate_and_submit cardholder_name merchant amount wallet_balance now rng
          api cache).payload := by
  refine ⟨submit_payload_eq _ _ _ _ _ _ _ _ hle, ?_⟩
  rw [submit_payload_eq _ _ _ _ _ _ _ _ hle,
    submit_payload_eq _ _ _ _ _ _ _ _ hle, hm]

/-- Witness for C6: two different cardholder names and two different
non-trigger merchants, amount 100 against balance 500000, produce the same
mkPayload-shaped payload. -/
theorem payload_excludes_names_spot :
    (evaluate_and_submit "John M. Doe" "Amazon Web Services" 100 500000 0
        (fun _ _ _ => 0) (fun _ => ApiResult.success 0 0) clearedCache).payload
      = some (mkPayload 0 100 (fun _ _ _ => 0)
          (is_secret_fraud "Amazon Web Services" 100))
    ∧ (evaluate_and_submit "Jane Q. Public" "Coffee Shop" 100 500000 0
        (fun _ _ _ => 0) (fun _ => ApiResult.success 0 0)
        { entry := some ([], 0) }).payload
      = (evaluate_and_submit "John M. Doe" "Amazon Web Services" 100 500000 0
          (fun _ _ _ => 0) (fun _ => ApiResult.success 0 0) clearedCache).payload :=
  payload_excludes_names "John M. Doe" "Jane Q. Public" "Amazon Web Services"
    "Coffee Shop" 100 500000 0 (fun _ _ _ => 0) (fun _ => ApiResult.success 0 0)
    clearedCache { entry := some ([], 0) } (by norm_num) (by decide)

/-- C7: starting from an invalidated cache, the first fetch issues the external
call and the second fetch within the ttl serves the same snapshot with no
external call; an explicit invalidation forces the next fetch to call out
again. -/
theorem history_cache_idempotent
    (backend : ℚ → HistoryResponse) (c : HistoryCache) (now1 now2 : ℚ)
    (h1 : now1 ≤ now2) (h2 : now2 - now1 < cacheTTL) :
    (fetch_history backend (fetch_history backend (invalidate c) now1).cache
        now2).result
      = (fetch_history backend (invalidate c) now1).result
    ∧ (fetch_history backend (invalidate c) now1).called_external = true
    ∧ (fetch_history backend (fetch_history backend (invalidate c) now1).cache
        now2).called_external = false
    ∧ (fetch_history backend
        (invalidate (fetch_history backend (invalidate c) now1).cache)
        now2).called_external = true := by
  simp [fetch_history, invalidate, h2]

/-- Witness for C7: a backend returning an empty list, fetches at times 0 and
30 with the 60-second ttl. -/
theorem history_cache_idempotent_spot :
    (fetch_history (fun _ => HistoryResponse.ok [])
        (fetch_history (fun _ => HistoryResponse.ok []) (invalidate clearedCache)
          0).cache 30).result
      = (fetch_history (fun _ => HistoryResponse.ok [])
          (invalidate clearedCache) 0).result
    ∧ (fetch_history (fun _ => HistoryResponse.ok []) (invalidate clearedCache)
        0).called_external = true
    ∧ (fetch_history (fun _ => HistoryResponse.ok [])
        (fetch_history (fun _ => HistoryResponse.ok []) (invalidate clearedCache)
          0).cache 30).called_external = false
    ∧ (fetch_history (fun _ => HistoryResponse.ok [])
        (invalidate (fetch_history (fun _ => HistoryResponse.ok [])
          (invalidate clearedCache) 0).cache) 30).called_external = true :=
  history_cache_idempotent (fun _ => HistoryResponse.ok []) clearedCache 0 30
    (by norm_num) (by norm_num [cacheTTL])

/-- C8: every failing history fetch (non-200 status, connection failure, or any
other exception) yields the empty record list together with a visible error
message, both at the get_history body and through the cached wrapper; the
function is total, so nothing is raised past the boundary. -/
theorem history_failure_degrades (status : ℕ) (detail : String) (now : ℚ) :
    ((get_history (HistoryResponse.httpError status)).1 = []
      ∧ (get_history (HistoryResponse.httpError status)).2 ≠ [])
    ∧ ((get_history HistoryResponse.connectionFailure).1 = []
      ∧ (get_history HistoryResponse.connectionFailure).2 ≠ [])
    ∧ ((get_history (HistoryResponse.exception detail)).1 = []
      ∧ (get_history (HistoryResponse.exception detail)).2 ≠ [])
    ∧ ((fetch_history (fun _ => HistoryResponse.httpError status) clearedCache
          now).result = []
      ∧ (fetch_history (fun _ => HistoryResponse.httpError status) clearedCache
          now).messages ≠ [])
    ∧ ((fetch_history (fun _ => HistoryResponse.connectionFailure) clearedCache
          now).result = []
      ∧ (fetch_history (fun _ => HistoryResponse.connectionFailure) clearedCache
          now).messages ≠ []) := by
  simp [get_history, fetch_history, clearedCache]

/-- C9: on a 200 response, any is_fraud value other than 1 — not only 0 — takes
the approval branch: the outcome is Approved and the wallet is debited by the
amount. -/
theorem non_one_is_fraud_approves
    (cardholder_name merchant : String) (amount wallet_balance now : ℚ)
    (rng : ℕ → ℚ → ℚ → ℚ) (api : Payload → ApiResult) (cache : HistoryCache)
    (isf : ℤ) (pf : ℚ)
    (hle : ¬ amount > wallet_balance)
    (hapi : api (mkPayload now amount rng (is_secret_fraud merchant amount))
      = ApiResult.success isf pf)
    (hone : isf ≠ 1) :
    (evaluate_and_submit cardholder_name merchant amount wallet_balance now rng api
        cache).outcome = Outcome.approved pf (wallet_balance - amount)
    ∧ (evaluate_and_submit cardholder_name merchant amount wallet_balance now rng
        api cache).wallet_balance = wallet_balance - amount := by
  simp [evaluate_and_submit, hle, hapi, hone]

/-- Witness for C9 with is_fraud = 2: still approved and debited. -/
theorem non_one_is_fraud_approves_spot :
    (evaluate_and_submit "John M. Doe" "Coffee Shop" 100 500000 0
        (fun _ _ _ => 0) (fun _ => ApiResult.success 2 (9/10))
        clearedCache).outcome = Outcome.approved (9/10) (500000 - 100)
    ∧ (evaluate_and_submit "John M. Doe" "Coffee Shop" 100 500000 0
        (fun _ _ _ => 0) (fun _ => ApiResult.success 2 (9/10))
        clearedCache).wallet_balance = 500000 - 100 :=
  non_one_is_fraud_approves "John M. Doe" "Coffee Shop" 100 500000 0
    (fun _ _ _ => 0) (fun _ => ApiResult.success 2 (9/10)) clearedCache
    2 (9/10) (by norm_num) rfl (by decide)

/-- C10: the balance stays nonnegative: the initial and reset value is 500000,
submitted amounts respect the 0.01 form minimum, and the only debit happens
under the funds guard, so a nonnegative balance stays nonnegative through any
submission. -/
theorem wallet_balance_nonneg
    (cardholder_name merchant : String) (amount wallet_balance now : ℚ)
    (rng : ℕ → ℚ → ℚ → ℚ) (api : Payload → ApiResult) (cache : HistoryCache)
    (h0 : 0 ≤ wallet_balance) (hmin : 1/100 ≤ amount) :
    0 ≤ (evaluate_and_submit cardholder_name merchant amount wallet_balance now rng
        api cache).wallet_balance
    ∧ initialWalletBalance = 500000
    ∧ reset_balance = initialWalletBalance
    ∧ (0 : ℚ) ≤ initialWalletBalance := by
  refine ⟨?_, rfl, rfl, by norm_num [initialWalletBalance]⟩
  by_cases hgt : amount > wallet_balance
  · simpa [evaluate_and_submit, hgt] using h0
  · have hle := not_lt.mp hgt
    cases hres : api (mkPayload now amount rng (is_secret_fraud merchant amount)) with
    | success isf pf =>
        by_cases hone : isf = 1
        · simpa [evaluate_and_submit, hgt, hres, hone] using h0
        · simp only [evaluate_and_submit, if_neg hgt, hres, if_neg hone]
          linarith
    | httpError s b => simpa [evaluate_and_submit, hgt, hres] using h0
    | connectionFailure => simpa [evaluate_and_submit, hgt, hres] using h0
    | exception d => simpa [evaluate_and_submit, hgt, hres] using h0

/-- Witness for C10: a successful debit of 100 from 500000 stays nonnegative. -/
theorem wallet_balance_nonneg_spot :
    0 ≤ (evaluate_and_submit "John M. Doe" "Coffee Shop" 100 500000 0
        (fun _ _ _ => 0) (fun _ => ApiResult.success 0 0)
        clearedCache).wallet_balance
    ∧ initialWalletBalance = 500000
    ∧ reset_balance = initialWalletBalance
    ∧ (0 : ℚ) ≤ initialWalletBalance :=
  wallet_balance_nonneg "John M. Doe" "Coffee Shop" 100 500000 0
    (fun _ _ _ => 0) (fun _ => ApiResult.success 0 0) clearedCache
    (by norm_num) (by norm_num)

end FraudFrontend
